import Mathlib

/-!
Shallow embedding of `src/data/generate_sample_data.py`
(E-Commerce Sample Data Generator).

Modelling conventions:
* pandas DataFrames are modelled as a `Table`: a column-name list plus a
  list of rows, each row a list of cells; a cell is `Option Val`, `none`
  standing for an injected NaN.
* Python floats and `round(x, 2)` are modelled over `ℚ`, with
  `round2 q = round (100 * q) / 100`.  The claims settled here depend
  only on exact arithmetic identities and on bounds with margins far
  larger than double-precision error, so the rational model is faithful.
* The process-wide random source is modelled by explicit oracle
  functions (one per sampling site).  A call such as
  `np.random.choice(xs, p=w)` always returns an element of `xs`; it is
  modelled as an index oracle together with (where a theorem needs it)
  an in-range hypothesis.  `random.uniform(a, b)` is modelled as a
  rational oracle with the hypothesis `a ≤ draw ∧ draw ≤ b`.
* `int(len(df) * 0.01)` is modelled as `len / 100` (natural floor
  division): the double `0.01` exceeds 1/100 by a relative error of
  about 2.1e-17, less than half an ulp, so `int(n * 0.01) = n // 100`
  for all row counts arising here.
-/

namespace SampleData

/-- A single table cell value: a string, a rational number, or a
naturals-encoded timestamp, as produced by the generators. -/
inductive Val where
  | str (s : String)
  | rat (q : ℚ)
  | nat (n : Nat)
deriving DecidableEq, Repr

/-- A cell is either a value or missing (NaN). -/
abbrev Cell := Option Val

/-- A pandas DataFrame: ordered column names and rows of cells. -/
structure Table where
  columns : List String
  rows : List (List Cell)
deriving DecidableEq, Repr

/-- Python `round(x, 2)` modelled over ℚ: round to the nearest
hundredth.  (Python rounds half-to-even; Mathlib `round` rounds half-up.
They differ only at exact half-cent ties, which none of the properties
proved here depend on.) -/
def round2 (q : ℚ) : ℚ := (round (100 * q) : ℤ) / 100

/-- The character of a decimal digit, `0 ↦ '0'` … `9 ↦ '9'`. -/
def digitChar (d : Nat) : Char := Char.ofNat (48 + d)

/-- The decimal digit of a character, `'0' ↦ 0` … `'9' ↦ 9`. -/
def charDigit (c : Char) : Nat := c.toNat - 48

/-- Decimal digits of `n`, most significant first (empty for 0). -/
def decChars (n : Nat) : List Char := ((Nat.digits 10 n).reverse).map digitChar

/-- Python `f'{n:0wd}'`: decimal form of `n` left-padded with zeros
to width `w`. -/
def fmtPad (w n : Nat) : String :=
  String.mk (List.replicate (w - (decChars n).length) '0' ++ decChars n)

/-- Parse a (possibly zero-padded) decimal character list back to ℕ. -/
def parseChars (l : List Char) : Nat :=
  Nat.ofDigits 10 ((l.map charDigit).reverse)

/-- `f'CUST_{i:05d}'`. -/
def mkCustomerId (i : Nat) : String := "CUST_" ++ fmtPad 5 i

/-- `f'PROD_{i:05d}'`. -/
def mkProductId (i : Nat) : String := "PROD_" ++ fmtPad 5 i

/-- `f'TXN_{i:06d}'`. -/
def mkTransactionId (i : Nat) : String := "TXN_" ++ fmtPad 6 i

/-- The 8 fixed product categories (`self.categories`). -/
inductive Category where
  | electronics | clothing | homeGarden | sports
  | books | beauty | toys | foodBeverage
deriving DecidableEq, Repr

/-- Display names of the categories, as in the source list. -/
def Category.name : Category → String
  | .electronics => "Electronics"
  | .clothing => "Clothing"
  | .homeGarden => "Home & Garden"
  | .sports => "Sports"
  | .books => "Books"
  | .beauty => "Beauty"
  | .toys => "Toys"
  | .foodBeverage => "Food & Beverage"

/-- `self.categories`, in source order. -/
def categories : List Category :=
  [.electronics, .clothing, .homeGarden, .sports,
   .books, .beauty, .toys, .foodBeverage]

/-- `self.price_ranges`: category ↦ (min_price, max_price). -/
def price_ranges : Category → ℚ × ℚ
  | .electronics => (50, 2000)
  | .clothing => (15, 200)
  | .homeGarden => (20, 500)
  | .sports => (25, 400)
  | .books => (10, 50)
  | .beauty => (15, 150)
  | .toys => (10, 100)
  | .foodBeverage => (5, 80)

/-- Constructor configuration (`EcommerceDataGenerator.__init__`): the
three counts are stored as given, with no validation of any kind. -/
structure Config where
  n_customers : Nat
  n_products : Nat
  n_transactions : Nat
deriving DecidableEq, Repr

/-- `EcommerceDataGenerator.__init__`: stores the three counts.  The
source performs no check on them. -/
def EcommerceDataGenerator.init (n_customers n_products n_transactions : Nat) :
    Config :=
  { n_customers := n_customers, n_products := n_products,
    n_transactions := n_transactions }

/-- A customer record (`generate_customers` row). `registration_date`
is the day-offset drawn by `random.randint(0, 700)` (the fixed base
date `2022-01-01` is left implicit). -/
structure Customer where
  customer_id : String
  registration_date : Nat
  country : String
  segment : String
deriving DecidableEq, Repr

/-- `countries` list of `generate_customers`. -/
def countries : List String :=
  ["USA", "UK", "Germany", "France", "Canada", "Australia"]

/-- `customer_segments` list of `generate_customers`. -/
def customer_segments : List String := ["New", "Regular", "VIP"]

/-- `generate_customers`: builds `n` rows.  `dateDraw i` models
`random.randint(0, 700)`; `countryPick i` and `segPick i` model the
index drawn by `np.random.choice` over `countries` (uniform) and
`customer_segments` (weights 0.4/0.45/0.15); the weights shape only the
distribution of the oracle, not the row built from it. -/
def generate_customers (n : Nat) (dateDraw countryPick segPick : Nat → Nat) :
    List Customer :=
  (List.range n).map fun i =>
    { customer_id := mkCustomerId i
      registration_date := dateDraw i
      country := countries.getD (countryPick i) "USA"
      segment := customer_segments.getD (segPick i) "New" }

/-- A product record (`generate_products` row). -/
structure Product where
  product_id : String
  product_name : String
  category : Category
  price : ℚ
  cost : ℚ
deriving DecidableEq, Repr

/-- Decimal rendering of `i` as Python `str(i)` / `f'{i}'`. -/
def natRepr (n : Nat) : String :=
  if n = 0 then "0" else String.mk (decChars n)

/-- `generate_products`: builds `m` rows.  `catPick i` models the index
drawn by `random.choice(self.categories)`; `priceDraw i` models
`random.uniform(min_price, max_price)` and `costDraw i` models
`random.uniform(min_price * 0.4, min_price * 0.7)` — the range
constraints on these uniform draws appear as hypotheses on theorems. -/
def generate_products (m : Nat) (catPick : Nat → Nat)
    (priceDraw costDraw : Nat → ℚ) : List Product :=
  (List.range m).map fun i =>
    let category := categories.getD (catPick i) .electronics
    { product_id := mkProductId i
      product_name := category.name ++ " Product " ++ natRepr i
      category := category
      price := round2 (priceDraw i)
      cost := round2 (costDraw i) }

/-- A transaction record (`generate_transactions` row).
`transaction_date` is the minute-offset from `2023-01-01`. -/
structure Transaction where
  transaction_id : String
  customer_id : String
  product_id : String
  transaction_date : Nat
  quantity : Nat
  unit_price : ℚ
  discount_pct : ℚ
  total_amount : ℚ
deriving DecidableEq, Repr

/-- Fallback row used to model total indexing; `np.random.choice` and
`DataFrame.sample` never fall back to it, which theorems capture with
in-range hypotheses on the pick oracles. -/
def defaultCustomer : Customer :=
  { customer_id := "", registration_date := 0, country := "", segment := "" }

/-- Fallback product, analogous to `defaultCustomer`. -/
def defaultProduct : Product :=
  { product_id := "", product_name := "", category := .electronics,
    price := 0, cost := 0 }

/-- `quantity` candidate list `[1, 2, 3, 4, 5]`. -/
def quantities : List Nat := [1, 2, 3, 4, 5]

/-- `generate_transactions`: builds `t` rows from the given customer and
product tables.  Oracles, one per sampling site of the loop body:
`custPick i` is the index of the customer id drawn by the weighted
`np.random.choice(customers['customer_id'], p=customer_weights)` (the
exponential weights shape only this oracle's distribution);
`prodPick i` is the row index drawn by `products.sample(1)`;
`dayDraw`/`hourDraw`/`minuteDraw` model the three `random.randint`
calls; `qtyPick i` indexes `quantities` for `np.random.choice`;
`noDisc i` models `random.random() > 0.2` and `discDraw i` models
`random.uniform(0.05, 0.3)`. -/
def generate_transactions (customers : List Customer)
    (products : List Product) (t : Nat)
    (custPick prodPick : Nat → Nat)
    (dayDraw hourDraw minuteDraw : Nat → Nat)
    (qtyPick : Nat → Nat) (noDisc : Nat → Bool) (discDraw : Nat → ℚ) :
    List Transaction :=
  (List.range t).map fun i =>
    let customer_id := (customers.getD (custPick i) defaultCustomer).customer_id
    let product := products.getD (prodPick i) defaultProduct
    let trans_date := dayDraw i * 1440 + hourDraw i * 60 + minuteDraw i
    let quantity := quantities.getD (qtyPick i) 1
    let discount : ℚ := if noDisc i then 0 else round2 (discDraw i)
    let subtotal := product.price * (quantity : ℚ)
    let discount_amount := subtotal * discount
    let total_amount := round2 (subtotal - discount_amount)
    { transaction_id := mkTransactionId i
      customer_id := customer_id
      product_id := product.product_id
      transaction_date := trans_date
      quantity := quantity
      unit_price := product.price
      discount_pct := discount
      total_amount := total_amount }

/-- The identifier columns excluded from missing-value injection
(the `if col not in [...]` test of `add_data_quality_issues`). -/
def protectedColumns : List String :=
  ["transaction_id", "customer_id", "product_id"]

/-- Missing-value injection on one row (`df_copy.loc[mask, col] = np.nan`
restricted to that row): cell `j` of the row is blanked when its column
is not protected and the row's Bernoulli draw for that column fired.
`maskRow j` models `np.random.random(len(df_copy))[i] < missing_rate`
for column `j` (the rate shapes only the oracle's distribution). -/
def corruptRow (cols : List String) (maskRow : Nat → Bool)
    (row : List Cell) : List Cell :=
  (List.range row.length).map fun j =>
    if (cols.getD j "") ∈ protectedColumns then row.getD j none
    else if maskRow j then none
    else row.getD j none

/-- The missing-value phase of `add_data_quality_issues` over the whole
table body; `mask i j` is row `i`'s Bernoulli draw for column `j`. -/
def corruptRows (cols : List String) (mask : Nat → Nat → Bool)
    (rows : List (List Cell)) : List (List Cell) :=
  (List.range rows.length).map fun i =>
    corruptRow cols (mask i) (rows.getD i [])

/-- The duplicate block: `df_copy.sample(n_duplicates)` with
`n_duplicates = int(len(df_copy) * 0.01)` (= `len / 100`, see header).
`dupPick k` is the index of the k-th sampled row; `sample` draws
without replacement, which only constrains the oracle's distribution. -/
def dupBlock (rows : List (List Cell)) (dupPick : Nat → Nat) :
    List (List Cell) :=
  (List.range (rows.length / 100)).map fun k => rows.getD (dupPick k) []

/-- `add_data_quality_issues`: returns a corrupted copy — missing
values injected into non-identifier columns of every row, then the
duplicate block (sampled from the already-corrupted rows) appended via
`pd.concat`.  Columns are unchanged. -/
def add_data_quality_issues (t : Table) (mask : Nat → Nat → Bool)
    (dupPick : Nat → Nat) : Table :=
  let corrupted := corruptRows t.columns mask t.rows
  { columns := t.columns, rows := corrupted ++ dupBlock corrupted dupPick }

/-- A heap of DataFrame objects, for stating that
`add_data_quality_issues` never mutates its argument object: Python
names are references into this store. -/
structure Store where
  tables : List Table
deriving Repr

/-- The empty table (fallback for dangling references). -/
def emptyTable : Table := { columns := [], rows := [] }

/-- `add_data_quality_issues` at the object level: `r` is the reference
denoted by the parameter `df`.  `df.copy()` allocates a fresh object;
the `df_copy.loc[...] = np.nan` writes and the `pd.concat` rebinding
touch only that fresh object.  Returns the final store and the
reference handed back to the caller. -/
def add_data_quality_issues_st (s : Store) (r : Nat)
    (mask : Nat → Nat → Bool) (dupPick : Nat → Nat) : Store × Nat :=
  let df := s.tables.getD r emptyTable
  let copyRef := s.tables.length
  let s1 : Store := { tables := s.tables ++ [df] }
  let corrupted : Table :=
    { columns := df.columns, rows := corruptRows df.columns mask df.rows }
  let s2 : Store := { tables := s1.tables.set copyRef corrupted }
  let s3 : Store :=
    { tables := s2.tables.set copyRef (add_data_quality_issues df mask dupPick) }
  (s3, copyRef)

/-- The customers DataFrame built by `generate_customers`. -/
def customersTable (cs : List Customer) : Table :=
  { columns := ["customer_id", "registration_date", "country", "segment"]
    rows := cs.map fun c =>
      [some (.str c.customer_id), some (.nat c.registration_date),
       some (.str c.country), some (.str c.segment)] }

/-- The products DataFrame built by `generate_products`. -/
def productsTable (ps : List Product) : Table :=
  { columns := ["product_id", "product_name", "category", "price", "cost"]
    rows := ps.map fun p =>
      [some (.str p.product_id), some (.str p.product_name),
       some (.str p.category.name), some (.rat p.price), some (.rat p.cost)] }

/-- The transactions DataFrame built by `generate_transactions`. -/
def transactionsTable (ts : List Transaction) : Table :=
  { columns := ["transaction_id", "customer_id", "product_id",
                "transaction_date", "quantity", "unit_price",
                "discount_pct", "total_amount"]
    rows := ts.map fun x =>
      [some (.str x.transaction_id), some (.str x.customer_id),
       some (.str x.product_id), some (.nat x.transaction_date),
       some (.nat x.quantity), some (.rat x.unit_price),
       some (.rat x.discount_pct), some (.rat x.total_amount)] }

/-- All random oracles of one `generate_all` run, one field per
sampling site. -/
structure Rand where
  dateDraw : Nat → Nat
  countryPick : Nat → Nat
  segPick : Nat → Nat
  catPick : Nat → Nat
  priceDraw : Nat → ℚ
  costDraw : Nat → ℚ
  custPick : Nat → Nat
  prodPick : Nat → Nat
  dayDraw : Nat → Nat
  hourDraw : Nat → Nat
  minuteDraw : Nat → Nat
  qtyPick : Nat → Nat
  noDisc : Nat → Bool
  discDraw : Nat → ℚ
  mask : Nat → Nat → Bool
  dupPick : Nat → Nat

/-- The six files written by `generate_all`, as tables (the CSV
serialization and directory creation carry no further data content). -/
structure GenerateAllResult where
  cleanCustomers : Table
  cleanProducts : Table
  cleanTransactions : Table
  rawCustomers : Table
  rawProducts : Table
  rawTransactions : Table
deriving DecidableEq, Repr

/-- `generate_all`: generates the three tables, writes them clean, then
applies `add_data_quality_issues` to the transactions table only and
writes `customers_raw`/`products_raw` from the uncorrupted tables and
`transactions_raw` from the corrupted one — exactly as in the source:
only `transactions` passes through the injector. -/
def generate_all (cfg : Config) (rnd : Rand) : GenerateAllResult :=
  let customers := generate_customers cfg.n_customers
    rnd.dateDraw rnd.countryPick rnd.segPick
  let products := generate_products cfg.n_products
    rnd.catPick rnd.priceDraw rnd.costDraw
  let transactions := generate_transactions customers products
    cfg.n_transactions rnd.custPick rnd.prodPick
    rnd.dayDraw rnd.hourDraw rnd.minuteDraw
    rnd.qtyPick rnd.noDisc rnd.discDraw
  let transactions_raw :=
    add_data_quality_issues (transactionsTable transactions)
      rnd.mask rnd.dupPick
  { cleanCustomers := customersTable customers
    cleanProducts := productsTable products
    cleanTransactions := transactionsTable transactions
    rawCustomers := customersTable customers
    rawProducts := productsTable products
    rawTransactions := transactions_raw }

/-! ### Helper lemmas -/

lemma charDigit_digitChar {d : Nat} (h : d < 10) :
    charDigit (digitChar d) = d := by
  unfold charDigit digitChar
  interval_cases d <;> decide

lemma decChars_map_charDigit (n : Nat) :
    (decChars n).map charDigit = (Nat.digits 10 n).reverse := by
  unfold decChars
  rw [List.map_map]
  have h : ∀ d ∈ (Nat.digits 10 n).reverse,
      (charDigit ∘ digitChar) d = id d := by
    intro d hd
    exact charDigit_digitChar
      (Nat.digits_lt_base (by norm_num) (List.mem_reverse.mp hd))
  rw [List.map_congr_left h, List.map_id]

lemma ofDigits_replicate_zero (k : Nat) :
    Nat.ofDigits 10 (List.replicate k 0) = 0 := by
  induction k with
  | zero => rfl
  | succ k ih => rw [List.replicate_succ, Nat.ofDigits_cons, ih]

lemma parseChars_fmtPad (w n : Nat) : parseChars (fmtPad w n).data = n := by
  show parseChars (List.replicate (w - (decChars n).length) '0'
      ++ decChars n) = n
  unfold parseChars
  rw [List.map_append, List.reverse_append, decChars_map_charDigit,
    List.reverse_reverse]
  have h0 : charDigit '0' = 0 := rfl
  rw [List.map_replicate, h0, List.reverse_replicate, Nat.ofDigits_append,
    Nat.ofDigits_digits, ofDigits_replicate_zero, Nat.mul_zero, Nat.add_zero]

lemma fmtPad_inj (w : Nat) : Function.Injective (fmtPad w) := by
  intro i j h
  have hd : (fmtPad w i).data = (fmtPad w j).data := by rw [h]
  have := congrArg parseChars hd
  rwa [parseChars_fmtPad, parseChars_fmtPad] at this

lemma prefixed_fmtPad_inj (p : String) (w : Nat) :
    Function.Injective (fun i => p ++ fmtPad w i) := by
  intro i j h
  have hd := congrArg String.data h
  rw [String.data_append, String.data_append] at hd
  exact fmtPad_inj w (String.ext (List.append_cancel_left hd))

lemma mkCustomerId_inj : Function.Injective mkCustomerId :=
  prefixed_fmtPad_inj "CUST_" 5

lemma round2_mono {a b : ℚ} (h : a ≤ b) : round2 a ≤ round2 b := by
  unfold round2
  have hr : round (100 * a) ≤ round (100 * b) := by
    rw [round_eq, round_eq]
    exact Int.floor_le_floor (by linarith)
  have := (div_le_div_iff_of_pos_right (c := (100 : ℚ)) (by norm_num)).mpr
    (Int.cast_le.mpr hr)
  exact this

/-- Indexing a range-map list below its length. -/
lemma getD_map_range {α : Type} {f : Nat → α} {n i : Nat} (h : i < n)
    (d : α) : ((List.range n).map f).getD i d = f i := by
  have hl : i < ((List.range n).map f).length := by
    simpa using h
  rw [List.getD_eq_getElem _ _ hl, List.getElem_map, List.getElem_range]

lemma corruptRow_length (cols : List String) (maskRow : Nat → Bool)
    (row : List Cell) : (corruptRow cols maskRow row).length = row.length := by
  simp [corruptRow]

lemma corruptRows_length (cols : List String) (mask : Nat → Nat → Bool)
    (rows : List (List Cell)) :
    (corruptRows cols mask rows).length = rows.length := by
  simp [corruptRows]

lemma dupBlock_length (rows : List (List Cell)) (dupPick : Nat → Nat) :
    (dupBlock rows dupPick).length = rows.length / 100 := by
  simp [dupBlock]

/-- Output size of the quality-issue injector. -/
lemma add_dqi_rows_length (t : Table) (mask : Nat → Nat → Bool)
    (dupPick : Nat → Nat) :
    (add_data_quality_issues t mask dupPick).rows.length
      = t.rows.length + t.rows.length / 100 := by
  show (corruptRows t.columns mask t.rows
      ++ dupBlock (corruptRows t.columns mask t.rows) dupPick).length = _
  rw [List.length_append, dupBlock_length, corruptRows_length]

lemma generate_customers_length (n : Nat)
    (dateDraw countryPick segPick : Nat → Nat) :
    (generate_customers n dateDraw countryPick segPick).length = n := by
  simp [generate_customers]

lemma customersTable_rows_length (cs : List Customer) :
    (customersTable cs).rows.length = cs.length := by
  simp [customersTable]

/-! ### Claim theorems -/

/-- C3: the constructor performs no validation: a count of 0 is
accepted and stored as-is (no error is raised), and the customer
generator then silently produces an empty table.  This contradicts the
spec's error-handling design, which requires counts ≤ 0 to be rejected
at entry with a descriptive error. -/
theorem init_accepts_nonpositive_counts :
    EcommerceDataGenerator.init 0 100 5000
      = { n_customers := 0, n_products := 100, n_transactions := 5000 } ∧
    generate_customers (EcommerceDataGenerator.init 0 100 5000).n_customers
      (fun _ => 0) (fun _ => 0) (fun _ => 0) = [] :=
  ⟨rfl, rfl⟩

/-- C5: on a table of N rows the quality-issue injector returns exactly
N + ⌊0.01·N⌋ rows: the first N are the original rows after
missing-value injection, followed by the appended duplicate block. -/
theorem injector_row_count_and_order (t : Table) (mask : Nat → Nat → Bool)
    (dupPick : Nat → Nat) :
    (add_data_quality_issues t mask dupPick).rows.length
      = t.rows.length + t.rows.length / 100 ∧
    (add_data_quality_issues t mask dupPick).rows.take t.rows.length
      = corruptRows t.columns mask t.rows ∧
    (add_data_quality_issues t mask dupPick).rows.drop t.rows.length
      = dupBlock (corruptRows t.columns mask t.rows) dupPick := by
  refine ⟨add_dqi_rows_length t mask dupPick, ?_, ?_⟩
  · exact List.take_left' (corruptRows_length t.columns mask t.rows)
  · exact List.drop_left' (corruptRows_length t.columns mask t.rows)

/-- C7: the customer generator produces exactly N records whose
customer_id column is the sequence CUST_00000 … CUST_{N-1}, in order,
and these N strings are pairwise distinct. -/
theorem customer_ids_sequential_and_distinct (n : Nat)
    (dateDraw countryPick segPick : Nat → Nat) :
    (generate_customers n dateDraw countryPick segPick).length = n ∧
    (generate_customers n dateDraw countryPick segPick).map
        (fun c => c.customer_id)
      = (List.range n).map mkCustomerId ∧
    ((generate_customers n dateDraw countryPick segPick).map
        (fun c => c.customer_id)).Nodup := by
  have hmap : (generate_customers n dateDraw countryPick segPick).map
      (fun c => c.customer_id) = (List.range n).map mkCustomerId := by
    unfold generate_customers
    rw [List.map_map]
    rfl
  refine ⟨generate_customers_length n dateDraw countryPick segPick, hmap, ?_⟩
  rw [hmap]
  exact (List.nodup_range n).map mkCustomerId_inj

lemma round2_sub_eq_round2_one_sub (p q d : ℚ) :
    round2 (p * q - p * q * d) = round2 (p * q * (1 - d)) :=
  congrArg round2 (by ring)

/-- Fixture transaction used to instantiate universally quantified
record properties at concrete indices. -/
def defaultTransaction : Transaction :=
  { transaction_id := "", customer_id := "", product_id := "",
    transaction_date := 0, quantity := 0, unit_price := 0,
    discount_pct := 0, total_amount := 0 }

/-- C4: every generated transaction satisfies
total_amount = round2 (unit_price · quantity · (1 − discount_pct));
the code's route through subtotal − discount_amount computes exactly
this reference formula. -/
theorem transaction_total_amount_formula (customers : List Customer)
    (products : List Product) (t : Nat) (custPick prodPick : Nat → Nat)
    (dayDraw hourDraw minuteDraw : Nat → Nat) (qtyPick : Nat → Nat)
    (noDisc : Nat → Bool) (discDraw : Nat → ℚ) :
    ∀ r ∈ generate_transactions customers products t custPick prodPick
        dayDraw hourDraw minuteDraw qtyPick noDisc discDraw,
      r.total_amount
        = round2 (r.unit_price * (r.quantity : ℚ) * (1 - r.discount_pct)) := by
  intro r hr
  simp only [generate_transactions, List.mem_map, List.mem_range] at hr
  obtain ⟨i, hi, rfl⟩ := hr
  exact round2_sub_eq_round2_one_sub _ _ _

/-- Membership of an in-range default-read element. -/
lemma getD_mem {α : Type} (l : List α) (i : Nat) (d : α)
    (h : i < l.length) : l.getD i d ∈ l := by
  rw [List.getD_eq_getElem l d h]
  exact List.getElem_mem h

/-- A concrete one-transaction run over singleton tables, used by
witness instantiations. -/
def txnRun : List Transaction :=
  generate_transactions [defaultCustomer] [defaultProduct] 1
    (fun _ => 0) (fun _ => 0) (fun _ => 0) (fun _ => 0) (fun _ => 0)
    (fun _ => 0) (fun _ => false) (fun _ => (1 : ℚ)/10)

lemma txnRun_length_pos : 0 < txnRun.length := by
  simp [txnRun, generate_transactions]

/-- C4 witness: the formula instantiated on the single transaction of a
concrete one-transaction run. -/
theorem transaction_total_amount_formula_witness :
    (txnRun.getD 0 defaultTransaction).total_amount
      = round2 ((txnRun.getD 0 defaultTransaction).unit_price
        * ((txnRun.getD 0 defaultTransaction).quantity : ℚ)
        * (1 - (txnRun.getD 0 defaultTransaction).discount_pct)) :=
  transaction_total_amount_formula [defaultCustomer] [defaultProduct] 1
    (fun _ => 0) (fun _ => 0) (fun _ => 0) (fun _ => 0) (fun _ => 0)
    (fun _ => 0) (fun _ => false) (fun _ => (1 : ℚ)/10)
    (txnRun.getD 0 defaultTransaction)
    (getD_mem txnRun 0 defaultTransaction txnRun_length_pos)

/-- C6: with non-empty customer and product tables and in-range pick
oracles (as `np.random.choice` and `DataFrame.sample` always deliver),
the transaction generator is total: it produces exactly T records, and
every record's customer_id and product_id occur in the respective
input tables. -/
theorem transactions_count_and_foreign_keys (customers : List Customer)
    (products : List Product) (t : Nat) (custPick prodPick : Nat → Nat)
    (dayDraw hourDraw minuteDraw : Nat → Nat) (qtyPick : Nat → Nat)
    (noDisc : Nat → Bool) (discDraw : Nat → ℚ)
    (ht : 1 ≤ t) (hcne : customers ≠ []) (hpne : products ≠ [])
    (hc : ∀ i, custPick i < customers.length)
    (hp : ∀ i, prodPick i < products.length) :
    (generate_transactions customers products t custPick prodPick dayDraw
      hourDraw minuteDraw qtyPick noDisc discDraw).length = t ∧
    ∀ r ∈ generate_transactions customers products t custPick prodPick
        dayDraw hourDraw minuteDraw qtyPick noDisc discDraw,
      r.customer_id ∈ customers.map (fun c => c.customer_id) ∧
      r.product_id ∈ products.map (fun p => p.product_id) := by
  constructor
  · simp [generate_transactions]
  intro r hr
  simp only [generate_transactions, List.mem_map, List.mem_range] at hr
  obtain ⟨i, hi, rfl⟩ := hr
  constructor
  · show (customers.getD (custPick i) defaultCustomer).customer_id ∈ _
    rw [List.getD_eq_getElem customers defaultCustomer (hc i)]
    exact List.mem_map_of_mem _ (List.getElem_mem (hc i))
  · show (products.getD (prodPick i) defaultProduct).product_id ∈ _
    rw [List.getD_eq_getElem products defaultProduct (hp i)]
    exact List.mem_map_of_mem _ (List.getElem_mem (hp i))

/-- C6 witness: a concrete one-transaction run over singleton tables,
every hypothesis discharged by evaluation. -/
theorem transactions_count_and_foreign_keys_witness :
    txnRun.length = 1 ∧
    (txnRun.getD 0 defaultTransaction).customer_id
      ∈ [defaultCustomer].map (fun c => c.customer_id) ∧
    (txnRun.getD 0 defaultTransaction).product_id
      ∈ [defaultProduct].map (fun p => p.product_id) := by
  have h := transactions_count_and_foreign_keys [defaultCustomer]
    [defaultProduct] 1 (fun _ => 0) (fun _ => 0) (fun _ => 0) (fun _ => 0)
    (fun _ => 0) (fun _ => 0) (fun _ => false) (fun _ => (1 : ℚ)/10)
    (by decide) (by simp) (by simp)
    (fun i => by simp) (fun i => by simp)
  have hmem := getD_mem txnRun 0 defaultTransaction txnRun_length_pos
  exact ⟨h.1, (h.2 _ hmem).1, (h.2 _ hmem).2⟩

/-- All four sampling bounds of a category are exact 2-decimal values,
so `round2` leaves them fixed. -/
lemma round2_bounds_fixed (c : Category) :
    round2 (price_ranges c).1 = (price_ranges c).1 ∧
    round2 (price_ranges c).2 = (price_ranges c).2 ∧
    round2 ((price_ranges c).1 * 0.4) = (price_ranges c).1 * 0.4 ∧
    round2 ((price_ranges c).1 * 0.7) = (price_ranges c).1 * 0.7 := by
  cases c <;>
    exact ⟨by norm_num [round2, price_ranges],
      by norm_num [round2, price_ranges],
      by norm_num [round2, price_ranges],
      by norm_num [round2, price_ranges]⟩

/-- C8: when the uniform draws lie in their configured ranges (as
`random.uniform(a, b)` guarantees), every generated product's price
lies in its category's (min, max) range and its cost in
[0.4·min, 0.7·min], the 2-decimal rounding included. -/
theorem product_price_cost_within_ranges (m : Nat) (catPick : Nat → Nat)
    (priceDraw costDraw : Nat → ℚ) (hm : 1 ≤ m)
    (hp : ∀ i,
      (price_ranges (categories.getD (catPick i) .electronics)).1
          ≤ priceDraw i ∧
        priceDraw i
          ≤ (price_ranges (categories.getD (catPick i) .electronics)).2)
    (hc : ∀ i,
      (price_ranges (categories.getD (catPick i) .electronics)).1 * 0.4
          ≤ costDraw i ∧
        costDraw i
          ≤ (price_ranges (categories.getD (catPick i) .electronics)).1
            * 0.7) :
    ∀ r ∈ generate_products m catPick priceDraw costDraw,
      (price_ranges r.category).1 ≤ r.price ∧
      r.price ≤ (price_ranges r.category).2 ∧
      (price_ranges r.category).1 * 0.4 ≤ r.cost ∧
      r.cost ≤ (price_ranges r.category).1 * 0.7 := by
  intro r hr
  simp only [generate_products, List.mem_map, List.mem_range] at hr
  obtain ⟨i, hi, rfl⟩ := hr
  obtain ⟨h1, h2, h3, h4⟩ :=
    round2_bounds_fixed (categories.getD (catPick i) .electronics)
  refine ⟨?_, ?_, ?_, ?_⟩
  · show (price_ranges (categories.getD (catPick i) .electronics)).1
      ≤ round2 (priceDraw i)
    calc (price_ranges (categories.getD (catPick i) .electronics)).1
        = round2 (price_ranges (categories.getD (catPick i) .electronics)).1 :=
          h1.symm
      _ ≤ round2 (priceDraw i) := round2_mono (hp i).1
  · show round2 (priceDraw i)
      ≤ (price_ranges (categories.getD (catPick i) .electronics)).2
    calc round2 (priceDraw i)
        ≤ round2 (price_ranges (categories.getD (catPick i) .electronics)).2 :=
          round2_mono (hp i).2
      _ = _ := h2
  · show (price_ranges (categories.getD (catPick i) .electronics)).1 * 0.4
      ≤ round2 (costDraw i)
    calc (price_ranges (categories.getD (catPick i) .electronics)).1 * 0.4
        = round2 ((price_ranges
            (categories.getD (catPick i) .electronics)).1 * 0.4) := h3.symm
      _ ≤ round2 (costDraw i) := round2_mono (hc i).1
  · show round2 (costDraw i)
      ≤ (price_ranges (categories.getD (catPick i) .electronics)).1 * 0.7
    calc round2 (costDraw i)
        ≤ round2 ((price_ranges
            (categories.getD (catPick i) .electronics)).1 * 0.7) :=
          round2_mono (hc i).2
      _ = _ := h4

/-- A concrete one-product run (electronics, price draw 100,
cost draw 25 ∈ [20, 35]), used by witness instantiations. -/
def prodRun : List Product :=
  generate_products 1 (fun _ => 0) (fun _ => 100) (fun _ => 25)

lemma prodRun_length_pos : 0 < prodRun.length := by
  simp [prodRun, generate_products]

/-- C8 witness: the range bounds instantiated on the single product of
a concrete one-product run. -/
theorem product_price_cost_within_ranges_witness :
    (price_ranges (prodRun.getD 0 defaultProduct).category).1
      ≤ (prodRun.getD 0 defaultProduct).price ∧
    (prodRun.getD 0 defaultProduct).price
      ≤ (price_ranges (prodRun.getD 0 defaultProduct).category).2 ∧
    (price_ranges (prodRun.getD 0 defaultProduct).category).1 * 0.4
      ≤ (prodRun.getD 0 defaultProduct).cost ∧
    (prodRun.getD 0 defaultProduct).cost
      ≤ (price_ranges (prodRun.getD 0 defaultProduct).category).1 * 0.7 :=
  product_price_cost_within_ranges 1 (fun _ => 0) (fun _ => 100)
    (fun _ => 25) (by decide)
    (fun i => by norm_num [categories, price_ranges])
    (fun i => by norm_num [categories, price_ranges])
    (prodRun.getD 0 defaultProduct)
    (getD_mem prodRun 0 defaultProduct prodRun_length_pos)

/-- C2 counterexample fact: in every one of the 8 categories the
largest possible (already rounded) cost, round2(0.7·min_price), is
strictly below the smallest possible price, min_price — so cost ≥ price
is impossible by construction and the claimed overlap never occurs. -/
theorem cost_upper_bound_below_price_lower_bound :
    round2 ((price_ranges .electronics).1 * 0.7)
        < (price_ranges .electronics).1 ∧
    round2 ((price_ranges .clothing).1 * 0.7) < (price_ranges .clothing).1 ∧
    round2 ((price_ranges .homeGarden).1 * 0.7)
        < (price_ranges .homeGarden).1 ∧
    round2 ((price_ranges .sports).1 * 0.7) < (price_ranges .sports).1 ∧
    round2 ((price_ranges .books).1 * 0.7) < (price_ranges .books).1 ∧
    round2 ((price_ranges .beauty).1 * 0.7) < (price_ranges .beauty).1 ∧
    round2 ((price_ranges .toys).1 * 0.7) < (price_ranges .toys).1 ∧
    round2 ((price_ranges .foodBeverage).1 * 0.7)
        < (price_ranges .foodBeverage).1 := by
  refine ⟨?_, ?_, ?_, ?_, ?_, ?_, ?_, ?_⟩ <;>
    norm_num [round2, price_ranges]

/-- C2 (amended): cost < price holds for every product of every
execution: the cost draw is bounded by 0.7·min_price, which is strictly
below min_price, the lower bound of the price draw, and 2-decimal
rounding preserves both bounds. -/
theorem product_cost_always_lt_price (m : Nat) (catPick : Nat → Nat)
    (priceDraw costDraw : Nat → ℚ)
    (hp : ∀ i,
      (price_ranges (categories.getD (catPick i) .electronics)).1
          ≤ priceDraw i ∧
        priceDraw i
          ≤ (price_ranges (categories.getD (catPick i) .electronics)).2)
    (hc : ∀ i,
      (price_ranges (categories.getD (catPick i) .electronics)).1 * 0.4
          ≤ costDraw i ∧
        costDraw i
          ≤ (price_ranges (categories.getD (catPick i) .electronics)).1
            * 0.7) :
    ∀ r ∈ generate_products m catPick priceDraw costDraw,
      r.cost < r.price := by
  intro r hr
  simp only [generate_products, List.mem_map, List.mem_range] at hr
  obtain ⟨i, hi, rfl⟩ := hr
  obtain ⟨h1, _, _, h4⟩ :=
    round2_bounds_fixed (categories.getD (catPick i) .electronics)
  have hgap : (price_ranges (categories.getD (catPick i) .electronics)).1 * 0.7
      < (price_ranges (categories.getD (catPick i) .electronics)).1 := by
    cases categories.getD (catPick i) Category.electronics <;>
      norm_num [price_ranges]
  show round2 (costDraw i) < round2 (priceDraw i)
  calc round2 (costDraw i)
      ≤ round2 ((price_ranges
          (categories.getD (catPick i) .electronics)).1 * 0.7) :=
        round2_mono (hc i).2
    _ = (price_ranges (categories.getD (catPick i) .electronics)).1 * 0.7 :=
        h4
    _ < (price_ranges (categories.getD (catPick i) .electronics)).1 := hgap
    _ = round2 (price_ranges (categories.getD (catPick i) .electronics)).1 :=
        h1.symm
    _ ≤ round2 (priceDraw i) := round2_mono (hp i).1

/-- C2 witness: cost < price on the single product of a concrete
one-product run. -/
theorem product_cost_always_lt_price_witness :
    (prodRun.getD 0 defaultProduct).cost
      < (prodRun.getD 0 defaultProduct).price :=
  product_cost_always_lt_price 1 (fun _ => 0) (fun _ => 100) (fun _ => 25)
    (fun i => by norm_num [categories, price_ranges])
    (fun i => by norm_num [categories, price_ranges])
    (prodRun.getD 0 defaultProduct)
    (getD_mem prodRun 0 defaultProduct prodRun_length_pos)

lemma getD_set_of_ne {α : Type} (l : List α) {i j : Nat} (a d : α)
    (h : i ≠ j) : (l.set i a).getD j d = l.getD j d := by
  by_cases hj : j < l.length
  · rw [List.getD_eq_getElem (l.set i a) d (by simpa using hj),
      List.getElem_set_ne h, List.getD_eq_getElem l d hj]
  · rw [List.getD_eq_default (l.set i a) d (by simpa using Nat.le_of_not_lt hj),
      List.getD_eq_default l d (Nat.le_of_not_lt hj)]

/-- C9: at the object level, `add_data_quality_issues` never mutates
the table passed in: after the call, the object the argument reference
denotes is exactly what it was before — `df.copy()` allocates a fresh
object and every subsequent write targets only that copy. -/
theorem injector_leaves_input_unmodified (s : Store) (r : Nat)
    (mask : Nat → Nat → Bool) (dupPick : Nat → Nat)
    (h : r < s.tables.length) :
    (add_data_quality_issues_st s r mask dupPick).1.tables.getD r emptyTable
      = s.tables.getD r emptyTable := by
  unfold add_data_quality_issues_st
  have hne : s.tables.length ≠ r := (Nat.ne_of_lt h).symm
  rw [getD_set_of_ne _ _ _ hne, getD_set_of_ne _ _ _ hne,
    List.getD_append s.tables _ emptyTable r h]

/-- A concrete one-row, one-table store used by witness
instantiations. -/
def storeRun : Store := { tables := [customersTable [defaultCustomer]] }

/-- C9 witness: the frame property on a concrete one-table store. -/
theorem injector_leaves_input_unmodified_witness :
    0 < storeRun.tables.length ∧
    (add_data_quality_issues_st storeRun 0 (fun _ _ => true)
        (fun _ => 0)).1.tables.getD 0 emptyTable
      = storeRun.tables.getD 0 emptyTable :=
  ⟨by simp [storeRun],
    injector_leaves_input_unmodified storeRun 0 (fun _ _ => true)
      (fun _ => 0) (by simp [storeRun])⟩

/-- C10: each of the first N output rows of the injector agrees with
the corresponding input row on every cell of a protected identifier
column, keeps its length (the column layout), and every one of its
cells is either the input cell unchanged or blanked to missing —
corruption never rewrites a value into a different present value. -/
theorem injector_first_rows_cells (t : Table) (mask : Nat → Nat → Bool)
    (dupPick : Nat → Nat) (i j : Nat) (hi : i < t.rows.length) :
    (add_data_quality_issues t mask dupPick).columns = t.columns ∧
    ((add_data_quality_issues t mask dupPick).rows.getD i []).length
      = (t.rows.getD i []).length ∧
    ((t.columns.getD j "") ∈ protectedColumns →
      ((add_data_quality_issues t mask dupPick).rows.getD i []).getD j none
        = (t.rows.getD i []).getD j none) ∧
    (((add_data_quality_issues t mask dupPick).rows.getD i []).getD j none
        = (t.rows.getD i []).getD j none ∨
      ((add_data_quality_issues t mask dupPick).rows.getD i []).getD j none
        = none) := by
  have hrow : (add_data_quality_issues t mask dupPick).rows.getD i []
      = corruptRow t.columns (mask i) (t.rows.getD i []) := by
    show (corruptRows t.columns mask t.rows
        ++ dupBlock (corruptRows t.columns mask t.rows) dupPick).getD i []
      = _
    rw [List.getD_append _ _ [] i (by rw [corruptRows_length]; exact hi)]
    unfold corruptRows
    exact getD_map_range hi []
  refine ⟨rfl, ?_, ?_, ?_⟩
  · rw [hrow, corruptRow_length]
  · intro hprot
    rw [hrow]
    by_cases hj : j < (t.rows.getD i []).length
    · unfold corruptRow
      rw [getD_map_range hj none]
      rw [if_pos hprot]
    · rw [List.getD_eq_default _ _ (by
          rw [corruptRow_length]; exact Nat.le_of_not_lt hj),
        List.getD_eq_default _ _ (Nat.le_of_not_lt hj)]
  · rw [hrow]
    by_cases hj : j < (t.rows.getD i []).length
    · unfold corruptRow
      rw [getD_map_range hj none]
      by_cases hprot : (t.columns.getD j "") ∈ protectedColumns
      · rw [if_pos hprot]
        exact Or.inl rfl
      · rw [if_neg hprot]
        by_cases hmask : mask i j
        · rw [if_pos hmask]
          exact Or.inr rfl
        · rw [if_neg hmask]
          exact Or.inl rfl
    · rw [List.getD_eq_default _ _ (by
          rw [corruptRow_length]; exact Nat.le_of_not_lt hj),
        List.getD_eq_default _ _ (Nat.le_of_not_lt hj)]
      exact Or.inl rfl

/-- A concrete two-column, one-row table used by witness
instantiations: one protected column, one corruptible column. -/
def tblRun : Table :=
  { columns := ["customer_id", "country"]
    rows := [[some (.str "CUST_00000"), some (.str "USA")]] }

/-- C10 witness: cell preservation instantiated at the protected
column of the single row of a concrete table, under a mask that fires
everywhere. -/
theorem injector_first_rows_cells_witness :
    (add_data_quality_issues tblRun (fun _ _ => true)
        (fun _ => 0)).columns = tblRun.columns ∧
    ((add_data_quality_issues tblRun (fun _ _ => true)
        (fun _ => 0)).rows.getD 0 []).length
      = (tblRun.rows.getD 0 []).length ∧
    ((tblRun.columns.getD 0 "") ∈ protectedColumns →
      ((add_data_quality_issues tblRun (fun _ _ => true)
          (fun _ => 0)).rows.getD 0 []).getD 0 none
        = (tblRun.rows.getD 0 []).getD 0 none) ∧
    (((add_data_quality_issues tblRun (fun _ _ => true)
          (fun _ => 0)).rows.getD 0 []).getD 0 none
        = (tblRun.rows.getD 0 []).getD 0 none ∨
      ((add_data_quality_issues tblRun (fun _ _ => true)
          (fun _ => 0)).rows.getD 0 []).getD 0 none = none) :=
  injector_first_rows_cells tblRun (fun _ _ => true) (fun _ => 0) 0 0
    (by simp [tblRun])

/-- C1 (amended): `generate_all` writes the clean set uncorrupted and,
in the raw set, passes only the transactions table through the
quality-issue injector; the raw customers and products files receive
the uncorrupted clean tables unchanged. -/
theorem generate_all_corrupts_only_transactions (cfg : Config)
    (rnd : Rand) :
    (generate_all cfg rnd).cleanCustomers
      = customersTable (generate_customers cfg.n_customers rnd.dateDraw
          rnd.countryPick rnd.segPick) ∧
    (generate_all cfg rnd).cleanProducts
      = productsTable (generate_products cfg.n_products rnd.catPick
          rnd.priceDraw rnd.costDraw) ∧
    (generate_all cfg rnd).rawCustomers = (generate_all cfg rnd).cleanCustomers ∧
    (generate_all cfg rnd).rawProducts = (generate_all cfg rnd).cleanProducts ∧
    (generate_all cfg rnd).rawTransactions
      = add_data_quality_issues (generate_all cfg rnd).cleanTransactions
          rnd.mask rnd.dupPick :=
  ⟨rfl, rfl, rfl, rfl, rfl⟩

/-- The all-zero random oracle bundle, for concrete runs. -/
def rnd0 : Rand :=
  { dateDraw := fun _ => 0, countryPick := fun _ => 0, segPick := fun _ => 0
    catPick := fun _ => 0, priceDraw := fun _ => 100, costDraw := fun _ => 25
    custPick := fun _ => 0, prodPick := fun _ => 0, dayDraw := fun _ => 0
    hourDraw := fun _ => 0, minuteDraw := fun _ => 0, qtyPick := fun _ => 0
    noDisc := fun _ => true, discDraw := fun _ => 0
    mask := fun _ _ => false, dupPick := fun _ => 0 }

/-- The concrete configuration of the counterexample run:
100 customers, 1 product, 1 transaction. -/
def cfg100 : Config :=
  { n_customers := 100, n_products := 1, n_transactions := 1 }

/-- C1 counterexample: on a concrete run with 100 customers, the raw
customers table `generate_all` writes is the clean table itself — it
has 100 rows, whereas any pass of that table through the quality-issue
injector appends ⌊0.01·100⌋ = 1 duplicate and yields 101 rows.  So the
customers (and likewise products) raw files are NOT injector output,
refuting the claim that all three raw tables pass through the
injector. -/
theorem generate_all_raw_customers_not_injected :
    (generate_all cfg100 rnd0).rawCustomers
      = (generate_all cfg100 rnd0).cleanCustomers ∧
    (generate_all cfg100 rnd0).rawCustomers.rows.length = 100 ∧
    (add_data_quality_issues (generate_all cfg100 rnd0).cleanCustomers
        rnd0.mask rnd0.dupPick).rows.length = 101 := by
  refine ⟨rfl, ?_, ?_⟩
  · show (customersTable (generate_customers 100 rnd0.dateDraw
        rnd0.countryPick rnd0.segPick)).rows.length = 100
    rw [customersTable_rows_length, generate_customers_length]
  · rw [add_dqi_rows_length]
    show (customersTable (generate_customers 100 rnd0.dateDraw
        rnd0.countryPick rnd0.segPick)).rows.length
      + (customersTable (generate_customers 100 rnd0.dateDraw
        rnd0.countryPick rnd0.segPick)).rows.length / 100 = 101
    rw [customersTable_rows_length, generate_customers_length]

end SampleData
